import Mathlib

/-
  Verification of the lg-agents repository: a shallow embedding of its
  agent-orchestration glue code (state reducers, graph wiring, crew task
  chains, error handling) together with proofs of its specified behavior.

  External effects (LLM calls, web scraping, crew kickoff) are modelled as
  oracle functions supplied as parameters; a call that can raise a Python
  exception is modelled as returning `Except String α`, with `.error e`
  standing for a raised exception whose message is `e`.
-/

namespace CollegeFinder

/-- Embeds the pydantic model `College` of
`src/agents/college_finder_agent/college_agent_schema.py`. -/
structure College where
  name : String
  location : String
  description : String
  acceptance_rate : Option String
  tuition : Option String
  enrollment : Option String
  dorm_percentage : Option String
  sat_scores : Option String
  programs : Option (List String)
  url : Option String
  has_missing_fields : Bool
deriving DecidableEq, Repr

/-- Embeds the body of the `for new_college in update` loop of
`colleges_reducer`: scan `result` for the first college whose `name` equals
`new_college.name`; replace it when found, append `new_college` otherwise. -/
def replace_or_append : List College → College → List College
  | [], c => [c]
  | x :: xs, c => if x.name = c.name then c :: xs else x :: replace_or_append xs c

/-- Embeds `colleges_reducer(current, update)` of
`college_agent_schema.py` (lines 43-64): `None` update returns `current`
unchanged; otherwise each college of `update` is folded into a copy of
`current` by `replace_or_append`, in order. -/
def colleges_reducer (current : List College) (update : Option (List College)) :
    List College :=
  match update with
  | none => current
  | some u => u.foldl replace_or_append current

/-- Embeds Python `operator.add` on lists: concatenation.  This is the
reducer attached by `Annotated[List[...], operator.add]` in
`CollegeFinderState`. -/
def operator_add {α : Type} (current update : List α) : List α := current ++ update

end CollegeFinder

/-- Modelled from the spec: stands in for `agents.tools.searchweb.SearchResult`
(the module is not under `src/`); the repository uses a search result only as
an opaque list element carrying a `link` field
(`marketing_agent.py`, `finalize_competitors`). -/
structure SearchResult where
  link : String
deriving DecidableEq, Repr

/-- Stand-in for the third-party langchain `BaseMessage` carried by the
`messages` state field. -/
structure BaseMessage where
  content : String
deriving DecidableEq, Repr

namespace CollegeFinder

/-- Embeds `CollegeFinderState` of `college_agent_schema.py` (lines 77-90).
The `Annotated` reducers of its list fields are embedded separately as
`search_results_reducer`, `colleges` uses `colleges_reducer`,
`recommendations_reducer`, `messages_reducer` and `status_updates_reducer`. -/
structure CollegeFinderState where
  major : Option String
  location_preference : Option String
  max_tuition : Option Int
  min_acceptance_rate : Option Float
  max_colleges : Int
  search_query : Option String
  sat_score : Option Int
  search_results : List SearchResult
  colleges : List College
  recommendations : List String
  messages : List BaseMessage
  data_gathering_attempts : Int
  status_updates : List String

/-- Reducer of the `search_results` field: `operator.add`. -/
def search_results_reducer : List SearchResult → List SearchResult → List SearchResult :=
  operator_add

/-- Reducer of the `recommendations` field: `operator.add`. -/
def recommendations_reducer : List String → List String → List String :=
  operator_add

/-- Reducer of the `messages` field: `operator.add`. -/
def messages_reducer : List BaseMessage → List BaseMessage → List BaseMessage :=
  operator_add

/-- Reducer of the `status_updates` field: `operator.add`. -/
def status_updates_reducer : List String → List String → List String :=
  operator_add

end CollegeFinder

/-- Names of the structured-output schema classes passed to
`with_structured_output` (marketing agent) or, via `model_json_schema()`, to
`output_json_schema` (vacation house tasks). -/
inductive SchemaName where
  | personaList
  | competitorList
  | siteInfo
  | marketingStrategiesList
  | keywordList
  | subredditList
  | candidateCities
  | homeMatches
deriving DecidableEq, Repr

/-- Stand-in for the langgraph `StateGraph` builder over state type `σ`:
records the node names added by `add_node`, the static edges added by
`add_edge`, the conditional edges added by `add_conditional_edges` (the
repository adds none), and the entry point.  `compile()` is modelled as the
identity, so a compiled graph is the builder itself. -/
structure StateGraphBuilder (σ : Type) where
  nodes : List String := []
  edges : List (String × String) := []
  conditional_edges : List (String × (σ → String)) := []
  entry : Option String := none

/-- `workflow.add_node(name, fn)`. -/
def add_node {σ : Type} (g : StateGraphBuilder σ) (name : String) :
    StateGraphBuilder σ :=
  { g with nodes := g.nodes ++ [name] }

/-- `workflow.add_edge(src, dst)`. -/
def add_edge {σ : Type} (g : StateGraphBuilder σ) (src dst : String) :
    StateGraphBuilder σ :=
  { g with edges := g.edges ++ [(src, dst)] }

/-- `workflow.set_entry_point(name)`. -/
def set_entry_point {σ : Type} (g : StateGraphBuilder σ) (name : String) :
    StateGraphBuilder σ :=
  { g with entry := some name }

/-- One superstep of langgraph execution on the declared wiring: the nodes
active in the next step are the targets of every static edge whose source is
active, together with the targets chosen by the routers of active conditional
edges (which may consult the state `s`), without duplicates. -/
def next_frontier {σ : Type} (g : StateGraphBuilder σ) (s : σ) (active : List String) :
    List String :=
  (((g.edges.filter (fun e => active.contains e.1)).map Prod.snd) ++
    ((g.conditional_edges.filter (fun ce => active.contains ce.1)).map
      (fun ce => ce.2 s))).dedup

/-- The frontier of active nodes after `n` supersteps, starting from the
entry point. -/
def frontier_seq {σ : Type} (g : StateGraphBuilder σ) (s : σ) : Nat → List String
  | 0 => match g.entry with
    | some n => [n]
    | none => []
  | n + 1 => next_frontier g s (frontier_seq g s n)

namespace Marketing

/-- Modelled from the spec: stands in for `Persona` of
`agents/marketing_agent/marketing_schema.py` (the module is not under
`src/`); `create_personas` asks for "a list of personas, each with a name and
description". -/
structure Persona where
  name : String
  description : String
deriving DecidableEq, Repr

/-- Modelled from the spec: stands in for `Competitor` of
`marketing_schema.py` (not under `src/`); `finalize_competitors` maps each
competitor link to a name and a brief description. -/
structure Competitor where
  name : String
  description : String
  link : String
deriving DecidableEq, Repr

/-- Embeds `PersonaList` of `marketing_agent.py`. -/
structure PersonaList where
  personas : List Persona
deriving DecidableEq, Repr

/-- Embeds `CompetitorList` of `marketing_agent.py`. -/
structure CompetitorList where
  competitors : List Competitor
deriving DecidableEq, Repr

/-- Embeds `SiteInfo` of `marketing_agent.py`. -/
structure SiteInfo where
  appName : String
  description : String
  keyfeatures : List String
  value_proposition : String
deriving DecidableEq, Repr

/-- Embeds `MarketingStrategiesList` of `marketing_agent.py`. -/
structure MarketingStrategiesList where
  strategies : List String
deriving DecidableEq, Repr

/-- Embeds `KeywordList` of `marketing_agent.py`. -/
structure KeywordList where
  keywords : List String
deriving DecidableEq, Repr

/-- Embeds `SubredditList` of `marketing_agent.py`. -/
structure SubredditList where
  subreddits : List String
deriving DecidableEq, Repr

/-- Modelled from the spec: stands in for `MarketingPlanState` of
`marketing_schema.py` (not under `src/`), restricted to the fields the graph
nodes read and write.  `max_personas` is modelled as a natural number,
matching the `int(state['max_personas'])` cast in `create_personas`. -/
structure MarketingPlanState where
  appName : String
  appUrl : String
  appDescription : String
  keyfeatures : List String
  value_proposition : String
  competitor_hint : String
  max_personas : Nat
  personas : List Persona
  search_results : List SearchResult
  keywords : List String
  competitors : List Competitor
  marketing_suggestions : List String
  subreddits : List String
  human_feedback : String

/-- Stand-in for the langchain `Document` returned by `scrape_web`. -/
structure Document where
  page_content : String
deriving DecidableEq, Repr

/-- The structured-output LLM: one fallible invocation function per schema
class the marketing agent requests through
`llm.with_structured_output(...)`.  `.error e` models a raised exception. -/
structure LLMOracle where
  invokePersonaList : String → Except String PersonaList
  invokeKeywordList : String → Except String KeywordList
  invokeCompetitorList : String → Except String CompetitorList
  invokeMarketingStrategiesList : String → Except String MarketingStrategiesList
  invokeSubredditList : String → Except String SubredditList

/-- Result of running one graph node: the state update it returns (or the
exception it raises), the error messages it prints, and the schema classes it
passed to `with_structured_output`, in call order. -/
structure NodeResult (α : Type) where
  out : Except String α
  logs : List String
  requests : List SchemaName

/-- Rendering of a list of strings inside an f-string (stand-in for Python
`str` of a list). -/
def renderStringList (xs : List String) : String :=
  "[" ++ String.intercalate ", " xs ++ "]"

/-- Rendering of a persona inside an f-string. -/
def renderPersona (p : Persona) : String :=
  "Persona(name=" ++ p.name ++ ", description=" ++ p.description ++ ")"

/-- Rendering of a competitor inside an f-string. -/
def renderCompetitor (c : Competitor) : String :=
  "Competitor(name=" ++ c.name ++ ", description=" ++ c.description ++
    ", link=" ++ c.link ++ ")"

/-- The prompt built by `create_personas` (whitespace normalised). -/
def create_personas_prompt (state : MarketingPlanState) : String :=
  "Create " ++ toString state.max_personas ++ " buyer personas for " ++
    state.appName ++ ".\n" ++
  "App description: " ++ state.appDescription ++ "\n" ++
  "Key features: " ++ renderStringList state.keyfeatures ++ "\n" ++
  "Value proposition: " ++ state.value_proposition ++ "\n\n" ++
  "Focus on their key characteristics, needs, and pain points.\n\n" ++
  "Return a list of personas, each with a name and description.\n"

/-- Embeds the `create_personas` node (`marketing_agent.py` lines 51-71):
invoke the model with structured output `PersonaList`, then keep only the
first `int(state['max_personas'])` returned personas. -/
def create_personas (oracle : LLMOracle) (state : MarketingPlanState) :
    NodeResult (List Persona) :=
  match oracle.invokePersonaList (create_personas_prompt state) with
  | .error e => ⟨.error e, [], [SchemaName.personaList]⟩
  | .ok response =>
    let max_personas := state.max_personas
    ⟨.ok (response.personas.take max_personas), [], [SchemaName.personaList]⟩

/-- The prompt built by `extract_keywords` (whitespace normalised). -/
def extract_keywords_prompt (state : MarketingPlanState) : String :=
  "Thinking like a social media manager what are some keywords you would monitor for " ++
    state.appName ++ " whose value proposition is: " ++ state.value_proposition ++ "\n\n" ++
  "The personas are: " ++ renderStringList (state.personas.map renderPersona) ++ "\n\n" ++
  "Return a list of 5 keywords or phrases to search for to find posts to monitor and respond to.  Do not respond with more than 10 phrases.\n" ++
  "Order the key words in order of relevance to " ++ state.appName ++
    " with the most relevant first.\n"

/-- Embeds the `extract_keywords` node (`marketing_agent.py` lines 125-137). -/
def extract_keywords (oracle : LLMOracle) (state : MarketingPlanState) :
    NodeResult (List String) :=
  match oracle.invokeKeywordList (extract_keywords_prompt state) with
  | .error e => ⟨.error e, [], [SchemaName.keywordList]⟩
  | .ok response => ⟨.ok response.keywords, [], [SchemaName.keywordList]⟩

/-- The per-link extraction prompt of `finalize_competitors` (whitespace
normalised). -/
def finalize_extract_prompt (doc : Document) : String :=
  "Extract the following information from this web page content:\n" ++
  "- All links to top level domains that appear to be competitors to Product Hunt\n" ++
  "- For each competitor also map their name and a brief description if available.\n\n" ++
  "Content:\n" ++ doc.page_content ++ "\n"

/-- The error line printed when processing one search result raises. -/
def error_processing_msg (link e : String) : String :=
  "Error processing " ++ link ++ ": " ++ e

/-- Embeds the `for search_result in state["search_results"]` loop of
`finalize_competitors` (`marketing_agent.py` lines 158-175): per search
result, scrape the link and extract competitors with structured output
`CompetitorList`; an exception from either call is caught, an
`Error processing ...` line is printed, and the loop continues.  Returns the
accumulated competitors, the printed error lines, and the structured-output
requests made, each in order. -/
def finalize_loop (oracle : LLMOracle) (scrape_web : String → Except String Document) :
    List SearchResult → List Competitor × List String × List SchemaName
  | [] => ([], [], [])
  | sr :: rest =>
    match scrape_web sr.link with
    | .error e =>
      let r := finalize_loop oracle scrape_web rest
      (r.1, error_processing_msg sr.link e :: r.2.1, r.2.2)
    | .ok doc =>
      match oracle.invokeCompetitorList (finalize_extract_prompt doc) with
      | .error e =>
        let r := finalize_loop oracle scrape_web rest
        (r.1, error_processing_msg sr.link e :: r.2.1,
          SchemaName.competitorList :: r.2.2)
      | .ok competitors =>
        let r := finalize_loop oracle scrape_web rest
        (competitors.competitors ++ r.1, r.2.1,
          SchemaName.competitorList :: r.2.2)

/-- The outcome of the body of the `finalize_competitors` loop on one search
result, with the exception (from scraping or extracting) not caught: used to
state what the loop computes. -/
def processLink (oracle : LLMOracle) (scrape_web : String → Except String Document)
    (sr : SearchResult) : Except String (List Competitor) :=
  match scrape_web sr.link with
  | .error e => .error e
  | .ok doc =>
    (oracle.invokeCompetitorList (finalize_extract_prompt doc)).map
      CompetitorList.competitors

/-- The final relevance-selection prompt of `finalize_competitors`
(whitespace normalised). -/
def finalize_select_prompt (state : MarketingPlanState)
    (results : List Competitor) : String :=
  "Given the list of competitors below determine which are the most relevant competitors, select no more than 10, to " ++
    state.appName ++ " an app that " ++ state.appDescription ++ ":\n" ++
  "Order the list with the most relevant competitors first.\n" ++
  "Potential competitors:\n" ++ renderStringList (results.map renderCompetitor) ++ "\n"

/-- Embeds the `finalize_competitors` node (`marketing_agent.py` lines
151-186): run the per-link loop, then make one more `CompetitorList`
structured invocation to select the most relevant competitors.  The final
invocation is outside the `try`, so its exception propagates. -/
def finalize_competitors (oracle : LLMOracle)
    (scrape_web : String → Except String Document) (state : MarketingPlanState) :
    NodeResult (List Competitor) :=
  let r := finalize_loop oracle scrape_web state.search_results
  match oracle.invokeCompetitorList (finalize_select_prompt state r.1) with
  | .error e => ⟨.error e, r.2.1, r.2.2 ++ [SchemaName.competitorList]⟩
  | .ok response => ⟨.ok response.competitors, r.2.1, r.2.2 ++ [SchemaName.competitorList]⟩

/-- The prompt built by `get_marketing_suggestions` (whitespace normalised). -/
def get_marketing_suggestions_prompt (state : MarketingPlanState) : String :=
  "Given the following information about " ++ state.appName ++
    " and its competitors, suggest 5 specific marketing strategies to promote " ++
    state.appName ++ ".\n" ++
  "The strategy should be specific and provide actions to take and details someone can act\n\n" ++
  "App description: " ++ state.appDescription ++ "\n" ++
  "Key features: " ++ renderStringList state.keyfeatures ++ "\n" ++
  "Value proposition: " ++ state.value_proposition ++ "\n" ++
  "Competitors: " ++ renderStringList (state.competitors.map renderCompetitor) ++ "\n"

/-- Embeds the `get_marketing_suggestions` node (`marketing_agent.py` lines
188-206). -/
def get_marketing_suggestions (oracle : LLMOracle) (state : MarketingPlanState) :
    NodeResult (List String) :=
  match oracle.invokeMarketingStrategiesList (get_marketing_suggestions_prompt state) with
  | .error e => ⟨.error e, [], [SchemaName.marketingStrategiesList]⟩
  | .ok response => ⟨.ok response.strategies, [], [SchemaName.marketingStrategiesList]⟩

/-- The prompt built by `get_subreddits` (whitespace normalised). -/
def get_subreddits_prompt (state : MarketingPlanState) : String :=
  "Given the following information about " ++ state.appName ++
    " and its competitors, suggest 5 subreddits to monitor or post on for " ++
    state.appName ++ ".\n" ++
  "App description: " ++ state.appDescription ++ "\n" ++
  "Key features: " ++ renderStringList state.keyfeatures ++ "\n" ++
  "Value proposition: " ++ state.value_proposition ++ "\n" ++
  "Competitors: " ++ renderStringList (state.competitors.map renderCompetitor) ++ "\n"

/-- Embeds the `get_subreddits` node (`marketing_agent.py` lines 208-223). -/
def get_subreddits (oracle : LLMOracle) (state : MarketingPlanState) :
    NodeResult (List String) :=
  match oracle.invokeSubredditList (get_subreddits_prompt state) with
  | .error e => ⟨.error e, [], [SchemaName.subredditList]⟩
  | .ok response => ⟨.ok response.subreddits, [], [SchemaName.subredditList]⟩

/-- Embeds the graph wiring of `create_marketing_graph`
(`marketing_agent.py` lines 226-258): the `add_node`, `add_edge` and
`set_entry_point` calls, in source order; `compile(checkpointer=MemorySaver())`
is modelled as returning the builder. -/
def create_marketing_graph : StateGraphBuilder MarketingPlanState :=
  let workflow : StateGraphBuilder MarketingPlanState := {}
  let workflow := add_node workflow "analyze_site"
  let workflow := add_node workflow "create_personas"
  let workflow := add_node workflow "extract_keywords"
  let workflow := add_node workflow "search_web_for_competitors_by_hint"
  let workflow := add_node workflow "finalize_competitors"
  let workflow := add_node workflow "get_marketing_suggestions"
  let workflow := add_node workflow "get_subreddits"
  let workflow := add_node workflow "__END__"
  let workflow := add_edge workflow "analyze_site" "create_personas"
  let workflow := add_edge workflow "create_personas" "extract_keywords"
  let workflow := add_edge workflow "extract_keywords" "search_web_for_competitors_by_hint"
  let workflow := add_edge workflow "search_web_for_competitors_by_hint" "finalize_competitors"
  let workflow := add_edge workflow "finalize_competitors" "get_marketing_suggestions"
  let workflow := add_edge workflow "finalize_competitors" "get_subreddits"
  let workflow := add_edge workflow "get_subreddits" "__END__"
  let workflow := add_edge workflow "get_marketing_suggestions" "__END__"
  let workflow := set_entry_point workflow "analyze_site"
  workflow

/-- Embeds the module-level `marketing_agent = create_marketing_graph()`. -/
def marketing_agent : StateGraphBuilder MarketingPlanState :=
  create_marketing_graph

end Marketing

namespace VacationHouse

/-- Embeds the crewai `Agent` values built by `VacationHouseAgent`
(`src/crew_agents/vacation_house_agent.py`): role, goal and backstory
strings, the names of the attached tools, and the flags passed. -/
structure Agent where
  role : String
  goal : String
  backstory : String
  toolNames : List String
  verbose : Bool
  allow_delegation : Bool
deriving DecidableEq, Repr

/-- Embeds the crewai `Task` values built by `VacationHouseAgent`: the
description and expected-output prompt strings, the structured
`output_json_schema` (named by the pydantic class whose
`model_json_schema()` was passed, `none` when the argument was omitted), the
`context` task list, the assigned agent, whether the
`append_event_callback` was attached, and the names of the attached tools. -/
inductive Task where
  | mk (description : String) (expected_output : String)
      (output_json_schema : Option SchemaName) (context : List Task)
      (agent : Agent) (hasCallback : Bool) (toolNames : List String) : Task

/-- The `description` field of a task. -/
def Task.description : Task → String
  | .mk d _ _ _ _ _ _ => d

/-- The `expected_output` field of a task. -/
def Task.expected_output : Task → String
  | .mk _ e _ _ _ _ _ => e

/-- The `output_json_schema` field of a task. -/
def Task.output_json_schema : Task → Option SchemaName
  | .mk _ _ s _ _ _ _ => s

/-- The `context` field of a task. -/
def Task.context : Task → List Task
  | .mk _ _ _ c _ _ _ => c

/-- The `agent` field of a task. -/
def Task.agent : Task → Agent
  | .mk _ _ _ _ a _ _ => a

/-- Embeds the crewai `Process` enumeration (the members this repository
could pass). -/
inductive Process where
  | sequential
  | hierarchical
deriving DecidableEq, Repr

/-- Embeds the crewai `Crew` value built in `VacationHouseAgent.run`. -/
structure Crew where
  agents : List Agent
  tasks : List Task
  verbose : Bool
  process : Process

/-- `CITY_LIMIT` of `vacation_house_agent.py`. -/
def CITY_LIMIT : Nat := 1

/-- `HOME_LIMIT` of `vacation_house_agent.py`. -/
def HOME_LIMIT : Nat := 2

/-- Embeds `VacationHouseAgent.city_researcher` (lines 64-80). -/
def city_researcher : Agent :=
  { role := "City Researcher"
    goal := "You are hired to find the towns that best match the user's criteria for vacation houses.\n" ++
      "Given the request from the user find the best potential cities or towns that meet the user's criteria.\n" ++
      "You are not looking for a specific house, but a town that has the best match for the user's criteria.\n" ++
      "Focus on the location and price restrictions.\n" ++
      "For each city research if there are short term rental restrictions and describe them briefly.\n"
    backstory := "As a City Researcher, you are responsible for aggregating all the researched information\ninto a list."
    toolNames := ["web_search_tool", "scrape_web_tool"]
    verbose := true
    allow_delegation := false }

/-- Embeds `VacationHouseAgent.real_estate_agent` (lines 82-95). -/
def real_estate_agent : Agent :=
  { role := "Real Estate Agent"
    goal := "Find the best vacation homes for the user based on their input.\n" ++
      "Look for single family homes within budget and with the most rooms and bathrooms.\n"
    backstory := "As a Real Estate Agent, you are responsible for finding the best vacation homes for the user.\n" ++
      "You will use the web tools to find the best homes for the user."
    toolNames := ["web_search_tool", "scrape_web_tool"]
    verbose := true
    allow_delegation := false }

/-- Embeds `VacationHouseAgent.local_expert` (lines 97-110). -/
def local_expert : Agent :=
  { role := "Local Expert Agent"
    goal := "Find the best local businesses for the user based on the location of the home they are interested in.\n" ++
      "Focus on bars and restaurants and coffee shops.\n" ++
      "Also try to summarize how walkable the area is.\n"
    backstory := "You are local expert trying to advice a potential buyer as to how the neighborhood is."
    toolNames := ["web_search_tool", "scrape_web_tool"]
    verbose := true
    allow_delegation := false }

/-- Embeds `VacationHouseAgent.find_candidate_cities_task` (lines 112-134):
the city-research task, with `output_json_schema` taken from
`CandidateCities.model_json_schema()` and no context tasks. -/
def find_candidate_cities_task (agent : Agent) (query : String) : Task :=
  Task.mk
    ("Compile a list of cities that match the user's query for vacation houses: " ++ query ++ "\n" ++
      "Try to use multiple sources to find the cities that match.\n" ++
      "For each city research if there are short term rental restrictions and describe them briefly.\n" ++
      "Double check that the criteria in the query is met and the best fit cities are returned.\n" ++
      "Use both your knowledge and the web search tool to find and verify cities.\n" ++
      "Return at most " ++ toString CITY_LIMIT ++ " cities.\n")
    ("A JSON array of cities that match the user's query for vacation houses.\n" ++
      "For each city include:\n" ++
      "- Name and location\n" ++
      "- Why it matches the criteria\n" ++
      "- Approximate price ranges for vacation homes\n" ++
      "- Short term rental restrictions (if any)\n")
    (some SchemaName.candidateCities)
    []
    agent
    true
    ["web_search_tool", "scrape_web_tool"]

/-- Embeds `VacationHouseAgent.find_vacation_homes_task` (lines 136-159):
the home-search task, with `output_json_schema` from
`HomeMatches.model_json_schema()` and context `[task]`. -/
def find_vacation_homes_task (agent : Agent) (query : String) (task : Task) : Task :=
  Task.mk
    ("Use the web to find a few example vacation homes (not condos) in the cities mentioned in the context that match the user's query: " ++ query ++ "\n" ++
      "Perform each city search separately and only once.  Return " ++ toString HOME_LIMIT ++ " results per city.\n" ++
      "When searching use filters to narrow down the results.\n" ++
      "If you cannot return results for a given city, return an empty list.\n" ++
      "If a price is given try to find houses near that price, not exactly that price (but also not too far away).\n" ++
      "Avoid zillow.com links.\n")
    ("A JSON array of homes that match the user's query.\n" ++
      "For each home include:\n" ++
      "- Name and location\n" ++
      "- Why it matches the criteria\n" ++
      "- Price\n" ++
      "- Link to the home\n")
    (some SchemaName.homeMatches)
    [task]
    agent
    true
    ["web_search_tool", "scrape_web_tool"]

/-- Embeds `VacationHouseAgent.verify_listings` (lines 161-176): the
listing-verification task, with `output_json_schema` from
`HomeMatches.model_json_schema()` and context `[homes_task]`. -/
def verify_listings (agent : Agent) (homes_task : Task) : Task :=
  Task.mk
    ("Verify the listings found in the homes_task are within the user's budget and have correct links.\n" ++
      "Verify links by opening the page and verifying the link is to the same address.  If it is not search for the address and try to find the correct link.\n" ++
      "The link should be to a for sale page for the property.\n")
    ("A JSON array of homes that match the user's query and have correct links.\n")
    (some SchemaName.homeMatches)
    [homes_task]
    agent
    true
    ["web_search_tool", "scrape_web_tool"]

/-- Embeds `VacationHouseAgent.find_local_businesses_task` (lines 178-196):
the local-business task, with `output_json_schema` from
`HomeMatches.model_json_schema()` and context `[listings_task]`. -/
def find_local_businesses_task (agent : Agent) (listings_task : Task) : Task :=
  Task.mk
    ("Find the best local businesses for the user based on the location of the homes they are interested in.\n" ++
      "For each home find the best bars and restaurants and coffee shops in the shortest distance to the homes address.\n")
    ("Updated JSON array of home matches with the business information added.  The business information should include:\n" ++
      "- Name\n" ++
      "- Address\n" ++
      "- Type of business\n" ++
      "- Distance from home specified in miles\n")
    (some SchemaName.homeMatches)
    [listings_task]
    agent
    true
    ["web_search_tool", "scrape_web_tool", "distance_tool"]

/-- Embeds `VacationHouseAgent.summarize_task` (lines 198-220): the summary
task, with no `output_json_schema` and the given task list as context. -/
def summarize_task (agent : Agent) (query : String) (tasks : List Task) : Task :=
  Task.mk
    ("Analyze the results from the city research and home search tasks to create a summary for the user.\n" ++
      "Original query: " ++ query ++ "\n\n" ++
      "Focus on:\n" ++
      "- How well the found cities match the user's requirements\n" ++
      "- The range and suitability of vacation homes found\n" ++
      "- Any notable patterns or insights across the results\n" ++
      "- The local businesses found for each house\n")
    ("A clear, concise summary of the vacation home search results that helps the user understand:\n" ++
      "- Which cities were identified and why they're good matches\n" ++
      "- The types and prices of homes found with links to the homes\n" ++
      "- Any recommendations or notable observations\n" ++
      "- The local businesses found for each house\n")
    none
    tasks
    agent
    true
    []

/-- Embeds `VacationHouseAgent.create_agents` (lines 36-42). -/
def create_agents : List Agent :=
  [city_researcher, real_estate_agent, local_expert]

/-- Embeds `VacationHouseAgent.create_tasks` (lines 44-62): build the five
tasks, wiring each context as in the source, and return them in order. -/
def create_tasks (query : String) : List Task :=
  let city_research_task := find_candidate_cities_task city_researcher query
  let real_estate_task := find_vacation_homes_task real_estate_agent query city_research_task
  let verify_listings_task := verify_listings real_estate_agent real_estate_task
  let local_business_task := find_local_businesses_task local_expert verify_listings_task
  let summarize := summarize_task city_researcher query
    [city_research_task, verify_listings_task, local_business_task]
  [city_research_task, real_estate_task, verify_listings_task,
    local_business_task, summarize]

/-- The `Crew(...)` constructed inside `VacationHouseAgent.run`
(lines 240-245): the created agents and tasks, `verbose=True`, and
`Process.sequential`. -/
def run_crew (query : String) : Crew :=
  { agents := create_agents
    tasks := create_tasks query
    verbose := true
    process := Process.sequential }

/-- Embeds `VacationHouseAgent.run` (lines 222-253): build the crew, call
`crew.kickoff()` (modelled as the oracle `kickoff`), return its result
unchanged on success, and on an exception return
`"Error running crew: "` followed by the exception message.  `input_data` is
modelled by its `"query"` entry, the only one `run` reads. -/
def run (kickoff : Crew → Except String String) (query : String) : String :=
  let crew := run_crew query
  match kickoff crew with
  | .ok results => results
  | .error e => "Error running crew: " ++ e

end VacationHouse

namespace Registry

/-- Embeds the `Agent` dataclass of `src/agents/agents.py`. -/
structure Agent where
  description : String
  graph : StateGraphBuilder Marketing.MarketingPlanState

/-- Modelled from the spec: stands in for `AgentInfo` of the `schema` module
(not under `src/`); `get_all_agent_info` builds one per registered agent from
a `key` and a `description`. -/
structure AgentInfo where
  key : String
  description : String
deriving DecidableEq, Repr

/-- Embeds `all_agents` of `agents.py`: the registry dictionary, holding only
`"marketing-agent"`. -/
def all_agents : List (String × Agent) :=
  [("marketing-agent", ⟨"A marketing agent.", Marketing.marketing_agent⟩)]

/-- Embeds `get_agent` of `agents.py`: `all_agents[agent_id].graph`.  Python
dict subscription raises `KeyError(agent_id)` on a missing key, modelled as
`.error agent_id`. -/
def get_agent (agent_id : String) : Except String (StateGraphBuilder Marketing.MarketingPlanState) :=
  match all_agents.lookup agent_id with
  | some a => .ok a.graph
  | none => .error agent_id

/-- Embeds `get_all_agent_info` of `agents.py`. -/
def get_all_agent_info : List AgentInfo :=
  all_agents.map (fun p => ⟨p.1, p.2.description⟩)

end Registry


/-
  Theorems.
-/

open CollegeFinder Marketing VacationHouse

/-- A concrete college used to instantiate theorems at witness inputs. -/
def sampleCollege (n : String) : CollegeFinder.College :=
  ⟨n, "", "", none, none, none, none, none, none, none, false⟩

/-- The superstep frontiers of a graph computed from its static edges alone,
ignoring conditional edges; agrees with `frontier_seq` exactly when the graph
has no conditional edges, i.e. when routing cannot consult the state. -/
def static_frontier_seq (edges : List (String × String)) (entry : Option String) :
    Nat → List String
  | 0 => match entry with
    | some n => [n]
    | none => []
  | n + 1 =>
    ((edges.filter
      (fun e => (static_frontier_seq edges entry n).contains e.1)).map Prod.snd).dedup

/-- A concrete structured-output LLM used to instantiate theorems at witness
inputs: it returns two personas and empty lists otherwise. -/
def sampleOracle : Marketing.LLMOracle :=
  { invokePersonaList := fun _ => .ok ⟨[⟨"Ann", "a founder"⟩, ⟨"Bo", "a buyer"⟩]⟩
    invokeKeywordList := fun _ => .ok ⟨[]⟩
    invokeCompetitorList := fun _ => .ok ⟨[]⟩
    invokeMarketingStrategiesList := fun _ => .ok ⟨[]⟩
    invokeSubredditList := fun _ => .ok ⟨[]⟩ }

/-- A concrete marketing state used to instantiate theorems at witness
inputs, with `max_personas = 1`. -/
def sampleState : Marketing.MarketingPlanState :=
  { appName := "App"
    appUrl := "https://example.com"
    appDescription := "an app"
    keyfeatures := []
    value_proposition := "value"
    competitor_hint := ""
    max_personas := 1
    personas := []
    search_results := []
    keywords := []
    competitors := []
    marketing_suggestions := []
    subreddits := []
    human_feedback := "" }

/-- When no college of `xs` bears the name of `c`, the loop body appends `c`
at the end. -/
theorem replace_or_append_of_not_found (xs : List College) (c : College)
    (h : ∀ y ∈ xs, y.name ≠ c.name) :
    replace_or_append xs c = xs ++ [c] := by
  induction xs with
  | nil => rfl
  | cons x xs ih =>
    have hx : x.name ≠ c.name := h x (List.mem_cons_self x xs)
    simp only [replace_or_append, if_neg hx, List.cons_append, List.cons.injEq, true_and]
    exact ih (fun y hy => h y (List.mem_cons_of_mem x hy))

/-- When index `k` is the first index of `xs` whose college bears the name of
`c`, the loop body replaces the college at `k` and keeps the rest. -/
theorem replace_or_append_of_found (xs : List College) (c : College) (k : Nat)
    (z : College) (hz : xs[k]? = some z) (hname : z.name = c.name)
    (hfirst : ∀ j y, j < k → xs[j]? = some y → y.name ≠ c.name) :
    replace_or_append xs c = xs.set k c := by
  induction xs generalizing k with
  | nil => simp at hz
  | cons x xs ih =>
    cases k with
    | zero =>
      have hx : x = z := by simpa using hz
      subst hx
      simp [replace_or_append, if_pos hname, List.set]
    | succ k =>
      have hx : x.name ≠ c.name := hfirst 0 x (Nat.succ_pos k) (by simp)
      have hz' : xs[k]? = some z := by simpa using hz
      have hfirst' : ∀ j y, j < k → xs[j]? = some y → y.name ≠ c.name := by
        intro j y hj hy
        exact hfirst (j + 1) y (Nat.succ_lt_succ hj) (by simpa using hy)
      simp only [replace_or_append, if_neg hx, List.set]
      exact congrArg (x :: ·) (ih k hz' hfirst')

/-- The loop body leaves every position whose college's name differs from the
incoming college's name unchanged. -/
theorem getElem?_replace_or_append (xs : List College) (c : College) (i : Nat)
    (x : College) (hx : xs[i]? = some x) (hne : x.name ≠ c.name) :
    (replace_or_append xs c)[i]? = some x := by
  induction xs generalizing i with
  | nil => simp at hx
  | cons a xs ih =>
    by_cases ha : a.name = c.name
    · cases i with
      | zero =>
        have : a = x := by simpa using hx
        subst this
        exact absurd ha hne
      | succ i =>
        simp only [replace_or_append, if_pos ha]
        simpa using hx
    · cases i with
      | zero =>
        simp only [replace_or_append, if_neg ha]
        simpa using hx
      | succ i =>
        simp only [replace_or_append, if_neg ha]
        have hx' : xs[i]? = some x := by simpa using hx
        simpa using ih i hx'

/-- Folding the whole update list leaves every position of the accumulator
whose college's name occurs in none of the update colleges unchanged. -/
theorem getElem?_foldl_replace_or_append (u : List College) :
    ∀ (current : List College) (i : Nat) (x : College), current[i]? = some x →
      (∀ c ∈ u, c.name ≠ x.name) →
      (u.foldl replace_or_append current)[i]? = some x := by
  induction u with
  | nil =>
    intro current i x hx _
    simpa using hx
  | cons c u ih =>
    intro current i x hx hn
    have hne : x.name ≠ c.name :=
      fun h => hn c (List.mem_cons_self c u) h.symm
    have hstep : (replace_or_append current c)[i]? = some x :=
      getElem?_replace_or_append current c i x hx hne
    simpa using ih (replace_or_append current c) i x hstep
      (fun d hd => hn d (List.mem_cons_of_mem c hd))

/-- C1: `colleges_reducer` is a replace-by-key (merge-by-name) reducer: a
`None` update returns `current` unchanged; otherwise the update colleges are
folded into the result in order, each one replacing the college at the first
position of the accumulated result bearing its name when one exists and being
appended at the end otherwise; and every college of `current` whose name
occurs in no update college is still present, unchanged, at its original
position. -/
theorem colleges_reducer_replace_by_name (current u : List College) (i : Nat)
    (x : College) (hx : current[i]? = some x)
    (hn : ∀ c ∈ u, c.name ≠ x.name) :
    colleges_reducer current none = current
    ∧ colleges_reducer current (some u) = u.foldl replace_or_append current
    ∧ (∀ (xs : List College) (c : College), (∀ y ∈ xs, y.name ≠ c.name) →
        replace_or_append xs c = xs ++ [c])
    ∧ (∀ (xs : List College) (c : College) (k : Nat) (z : College),
        xs[k]? = some z → z.name = c.name →
        (∀ j y, j < k → xs[j]? = some y → y.name ≠ c.name) →
        replace_or_append xs c = xs.set k c)
    ∧ (colleges_reducer current (some u))[i]? = some x := by
  refine ⟨rfl, rfl, replace_or_append_of_not_found, replace_or_append_of_found, ?_⟩
  exact getElem?_foldl_replace_or_append u current i x hx hn

/-- C1 witness: the reducer run on a one-college list with an update of a
different name leaves position 0 unchanged. -/
theorem colleges_reducer_replace_by_name_witness :
    ([sampleCollege "Alpha"] : List College)[0]? = some (sampleCollege "Alpha")
    ∧ (∀ c ∈ [sampleCollege "Beta"], c.name ≠ (sampleCollege "Alpha").name)
    ∧ (colleges_reducer [sampleCollege "Alpha"]
        (some [sampleCollege "Beta"]))[0]? = some (sampleCollege "Alpha") :=
  ⟨rfl, by decide,
    (colleges_reducer_replace_by_name [sampleCollege "Alpha"] [sampleCollege "Beta"]
      0 (sampleCollege "Alpha") rfl (by decide)).2.2.2.2⟩

/-- The names of the loop body's result: unchanged when the incoming name is
already present (the first bearer is replaced by a college with the same
name), the incoming name appended at the end otherwise. -/
theorem map_name_replace_or_append (xs : List College) (c : College) :
    (replace_or_append xs c).map College.name =
      if c.name ∈ xs.map College.name then xs.map College.name
      else xs.map College.name ++ [c.name] := by
  induction xs with
  | nil => simp [replace_or_append]
  | cons x xs ih =>
    by_cases hx : x.name = c.name
    · have hmem : c.name ∈ (x :: xs).map College.name := by
        rw [List.map_cons, ← hx]
        exact List.mem_cons_self _ _
      rw [if_pos hmem]
      simp only [replace_or_append, if_pos hx, List.map_cons]
      rw [hx]
    · have hcx : ¬c.name = x.name := fun h => hx h.symm
      simp only [replace_or_append, if_neg hx, List.map_cons, ih]
      by_cases hm : c.name ∈ xs.map College.name
      · have hmem : c.name ∈ x.name :: xs.map College.name :=
          List.mem_cons_of_mem _ hm
        rw [if_pos hm, if_pos hmem]
      · have hnm : ¬c.name ∈ x.name :: xs.map College.name := by
          intro h
          rcases List.mem_cons.mp h with h | h
          · exact hcx h
          · exact hm h
        rw [if_neg hm, if_neg hnm, List.cons_append]

/-- The loop body preserves pairwise-distinct names. -/
theorem nodup_replace_or_append (xs : List College) (c : College)
    (h : (xs.map College.name).Nodup) :
    ((replace_or_append xs c).map College.name).Nodup := by
  rw [map_name_replace_or_append]
  by_cases hm : c.name ∈ xs.map College.name
  · rwa [if_pos hm]
  · rw [if_neg hm]
    refine List.Nodup.append h (List.nodup_singleton _) ?_
    intro a ha hb
    have : a = c.name := by simpa using hb
    exact hm (this ▸ ha)

/-- Folding a whole update list preserves pairwise-distinct names. -/
theorem nodup_foldl_replace_or_append (u : List College) :
    ∀ current : List College, (current.map College.name).Nodup →
      ((u.foldl replace_or_append current).map College.name).Nodup := by
  induction u with
  | nil => intro current h; simpa using h
  | cons c u ih =>
    intro current h
    simpa using ih (replace_or_append current c) (nodup_replace_or_append current c h)

/-- C8: `colleges_reducer` preserves uniqueness of the name key: when all
college names of `current` are pairwise distinct, so are all college names of
`colleges_reducer current update`, for every update. -/
theorem colleges_reducer_preserves_name_nodup (current : List College)
    (update : Option (List College)) (h : (current.map College.name).Nodup) :
    ((colleges_reducer current update).map College.name).Nodup := by
  cases update with
  | none => exact h
  | some u => exact nodup_foldl_replace_or_append u current h

/-- C8 witness: a two-college list with distinct names keeps distinct names
after an update that replaces one college and appends another. -/
theorem colleges_reducer_preserves_name_nodup_witness :
    (([sampleCollege "Alpha", sampleCollege "Beta"] : List College).map College.name).Nodup
    ∧ ((colleges_reducer [sampleCollege "Alpha", sampleCollege "Beta"]
        (some [sampleCollege "Beta", sampleCollege "Gamma"])).map College.name).Nodup :=
  ⟨by decide,
    colleges_reducer_preserves_name_nodup
      [sampleCollege "Alpha", sampleCollege "Beta"]
      (some [sampleCollege "Beta", sampleCollege "Gamma"]) (by decide)⟩

/-- C2: the list-valued state fields `search_results`, `recommendations`,
`messages` and `status_updates` of `CollegeFinderState` are merged with the
list-append reducer `operator.add`: merging equals concatenation of the
current list with the update, the empty list is a left and right identity for
each reducer, and each reducer is associative. -/
theorem college_state_list_append_reducers (sc su sv : List SearchResult)
    (rc ru rv : List String) (mc mu mv : List BaseMessage)
    (tc tu tv : List String) :
    search_results_reducer sc su = sc ++ su
    ∧ search_results_reducer [] su = su
    ∧ search_results_reducer sc [] = sc
    ∧ search_results_reducer (search_results_reducer sc su) sv
        = search_results_reducer sc (search_results_reducer su sv)
    ∧ recommendations_reducer rc ru = rc ++ ru
    ∧ recommendations_reducer [] ru = ru
    ∧ recommendations_reducer rc [] = rc
    ∧ recommendations_reducer (recommendations_reducer rc ru) rv
        = recommendations_reducer rc (recommendations_reducer ru rv)
    ∧ messages_reducer mc mu = mc ++ mu
    ∧ messages_reducer [] mu = mu
    ∧ messages_reducer mc [] = mc
    ∧ messages_reducer (messages_reducer mc mu) mv
        = messages_reducer mc (messages_reducer mu mv)
    ∧ status_updates_reducer tc tu = tc ++ tu
    ∧ status_updates_reducer [] tu = tu
    ∧ status_updates_reducer tc [] = tc
    ∧ status_updates_reducer (status_updates_reducer tc tu) tv
        = status_updates_reducer tc (status_updates_reducer tu tv) := by
  refine ⟨rfl, rfl, ?_, ?_, rfl, rfl, ?_, ?_, rfl, rfl, ?_, ?_, rfl, rfl, ?_, ?_⟩ <;>
    simp [search_results_reducer, recommendations_reducer, messages_reducer,
      status_updates_reducer, operator_add, List.append_assoc]

/-- On a graph without conditional edges, the superstep frontiers never
consult the state: they equal the purely static frontiers. -/
theorem frontier_seq_eq_static {σ : Type} (g : StateGraphBuilder σ)
    (h : g.conditional_edges = []) (s : σ) :
    ∀ n, frontier_seq g s n = static_frontier_seq g.edges g.entry n := by
  intro n
  induction n with
  | zero => rfl
  | succ n ih =>
    simp only [frontier_seq, static_frontier_seq, next_frontier, h, ih,
      List.filter_nil, List.map_nil, List.append_nil]

/-- C3: the marketing graph is static and hand-declared: its node list is
exactly the eight named nodes, its entry point is `analyze_site`, its edge
list is exactly the eight declared edges, it has no conditional edges, and
for every state the superstep frontiers visit `analyze_site`,
`create_personas`, `extract_keywords`, `search_web_for_competitors_by_hint`
and `finalize_competitors` in order, then `get_marketing_suggestions` and
`get_subreddits` together, then `__END__`. -/
theorem marketing_graph_static_wiring (s : Marketing.MarketingPlanState) :
    Marketing.marketing_agent.nodes =
      ["analyze_site", "create_personas", "extract_keywords",
        "search_web_for_competitors_by_hint", "finalize_competitors",
        "get_marketing_suggestions", "get_subreddits", "__END__"]
    ∧ Marketing.marketing_agent.entry = some "analyze_site"
    ∧ Marketing.marketing_agent.edges =
      [("analyze_site", "create_personas"),
        ("create_personas", "extract_keywords"),
        ("extract_keywords", "search_web_for_competitors_by_hint"),
        ("search_web_for_competitors_by_hint", "finalize_competitors"),
        ("finalize_competitors", "get_marketing_suggestions"),
        ("finalize_competitors", "get_subreddits"),
        ("get_subreddits", "__END__"),
        ("get_marketing_suggestions", "__END__")]
    ∧ Marketing.marketing_agent.conditional_edges = []
    ∧ (List.range 8).map (frontier_seq Marketing.marketing_agent s) =
      [["analyze_site"], ["create_personas"], ["extract_keywords"],
        ["search_web_for_competitors_by_hint"], ["finalize_competitors"],
        ["get_marketing_suggestions", "get_subreddits"], ["__END__"], []] := by
  refine ⟨rfl, rfl, rfl, rfl, ?_⟩
  have hmap : (List.range 8).map (frontier_seq Marketing.marketing_agent s) =
      (List.range 8).map
        (static_frontier_seq Marketing.marketing_agent.edges
          Marketing.marketing_agent.entry) :=
    List.map_congr_left
      (fun n _ => frontier_seq_eq_static Marketing.marketing_agent rfl s n)
  rw [hmap]
  decide

/-- C4: `create_tasks` returns exactly the five tasks city research, find
vacation homes, verify listings, find local businesses, summarize, in that
order; each of the middle three takes exactly its predecessor as context; the
summary task takes the city research, verify listings and local business
tasks as context; and `run` builds its crew from these tasks with a
sequential process. -/
theorem vacation_tasks_linear_chain (q : String) :
    ∃ t0 t1 t2 t3 t4,
      create_tasks q = [t0, t1, t2, t3, t4]
      ∧ t0 = find_candidate_cities_task city_researcher q
      ∧ t1 = find_vacation_homes_task real_estate_agent q t0
      ∧ t2 = verify_listings real_estate_agent t1
      ∧ t3 = find_local_businesses_task local_expert t2
      ∧ t4 = summarize_task city_researcher q [t0, t2, t3]
      ∧ t1.context = [t0]
      ∧ t2.context = [t1]
      ∧ t3.context = [t2]
      ∧ t4.context = [t0, t2, t3]
      ∧ (run_crew q).tasks = create_tasks q
      ∧ (run_crew q).agents = create_agents
      ∧ (run_crew q).process = Process.sequential :=
  ⟨_, _, _, _, _, rfl, rfl, rfl, rfl, rfl, rfl, rfl, rfl, rfl, rfl, rfl, rfl, rfl⟩

/-- C5: the `finalize_competitors` loop recovers from per-link failures by
catching and logging: its accumulated competitor list is exactly the
concatenation of the competitors extracted from the successfully processed
search results — an exception on one link never discards them and never
escapes — and its printed log is exactly one `Error processing ...` line per
failing search result, in order. -/
theorem finalize_competitors_catches_per_link (oracle : LLMOracle)
    (scrape_web : String → Except String Document) (srs : List SearchResult) :
    (finalize_loop oracle scrape_web srs).1 =
      (srs.filterMap (fun sr => (processLink oracle scrape_web sr).toOption)).flatten
    ∧ (finalize_loop oracle scrape_web srs).2.1 =
      srs.filterMap (fun sr =>
        match processLink oracle scrape_web sr with
        | .error e => some (error_processing_msg sr.link e)
        | .ok _ => none) := by
  induction srs with
  | nil => exact ⟨rfl, rfl⟩
  | cons sr rest ih =>
    obtain ⟨ih1, ih2⟩ := ih
    cases hs : scrape_web sr.link with
    | error e =>
      simp [finalize_loop, processLink, hs, ih1, ih2, Except.toOption]
    | ok doc =>
      cases hc : oracle.invokeCompetitorList (finalize_extract_prompt doc) with
      | error e =>
        simp [finalize_loop, processLink, hs, hc, ih1, ih2, Except.toOption, Except.map]
      | ok cl =>
        simp [finalize_loop, processLink, hs, hc, ih1, ih2, Except.toOption, Except.map]

/-- C6: `VacationHouseAgent.run` never propagates an exception from crew
execution: when `crew.kickoff()` raises `e`, `run` returns
`"Error running crew: "` followed by the message of `e`; when it succeeds,
`run` returns its result unchanged. -/
theorem vacation_run_error_handling (kickoff : Crew → Except String String)
    (q : String) :
    (∀ e, kickoff (run_crew q) = .error e →
      run kickoff q = "Error running crew: " ++ e)
    ∧ (∀ r, kickoff (run_crew q) = .ok r → run kickoff q = r) := by
  constructor
  · intro e he
    simp [run, he]
  · intro r hr
    simp [run, hr]

/-- C6 witness: a kickoff that raises `boom` yields the error string, a
kickoff that returns `done` yields `done`. -/
theorem vacation_run_error_handling_witness :
    ((fun _ : Crew => (Except.error "boom" : Except String String)) (run_crew "q")
      = Except.error "boom")
    ∧ run (fun _ => Except.error "boom") "q" = "Error running crew: " ++ "boom"
    ∧ run (fun _ => Except.ok "done") "q" = "done" :=
  ⟨rfl,
    (vacation_run_error_handling (fun _ => Except.error "boom") "q").1 "boom" rfl,
    (vacation_run_error_handling (fun _ => Except.ok "done") "q").2 "done" rfl⟩

/-- Every structured-output request the `finalize_competitors` loop makes is
for `CompetitorList`. -/
theorem finalize_loop_requests_replicate (oracle : LLMOracle)
    (scrape_web : String → Except String Document) (srs : List SearchResult) :
    ∃ k, (finalize_loop oracle scrape_web srs).2.2 =
      List.replicate k SchemaName.competitorList := by
  induction srs with
  | nil => exact ⟨0, rfl⟩
  | cons sr rest ih =>
    obtain ⟨k, hk⟩ := ih
    cases hs : scrape_web sr.link with
    | error e => exact ⟨k, by simp [finalize_loop, hs, hk]⟩
    | ok doc =>
      cases hc : oracle.invokeCompetitorList (finalize_extract_prompt doc) with
      | error e =>
        exact ⟨k + 1, by simp [finalize_loop, hs, hc, hk, List.replicate_succ]⟩
      | ok cl =>
        exact ⟨k + 1, by simp [finalize_loop, hs, hc, hk, List.replicate_succ]⟩

/-- The requests of the `finalize_competitors` node: the loop's requests
followed by the final relevance-selection request. -/
theorem finalize_competitors_requests (oracle : LLMOracle)
    (scrape_web : String → Except String Document) (state : MarketingPlanState) :
    (finalize_competitors oracle scrape_web state).requests =
      (finalize_loop oracle scrape_web state.search_results).2.2 ++
        [SchemaName.competitorList] := by
  cases hc : oracle.invokeCompetitorList
      (finalize_select_prompt state
        (finalize_loop oracle scrape_web state.search_results).1) <;>
    simp [finalize_competitors, hc]

/-- C7: every language-model invocation requests a structured output schema:
`create_personas` requests exactly `PersonaList`, `extract_keywords` exactly
`KeywordList`, every request of `finalize_competitors` is `CompetitorList`
(and it makes at least one), `get_marketing_suggestions` requests exactly
`MarketingStrategiesList`, `get_subreddits` exactly `SubredditList`; and the
vacation-house tasks declare `output_json_schema` from `CandidateCities`
(city research) or `HomeMatches` (homes, verification, local businesses),
while the prose summary task declares none. -/
theorem structured_output_everywhere (oracle : LLMOracle)
    (scrape_web : String → Except String Document) (state : MarketingPlanState)
    (ag : VacationHouse.Agent) (q : String) (t : VacationHouse.Task)
    (ts : List VacationHouse.Task) :
    (create_personas oracle state).requests = [SchemaName.personaList]
    ∧ (extract_keywords oracle state).requests = [SchemaName.keywordList]
    ∧ (∀ r ∈ (finalize_competitors oracle scrape_web state).requests,
        r = SchemaName.competitorList)
    ∧ SchemaName.competitorList ∈ (finalize_competitors oracle scrape_web state).requests
    ∧ (get_marketing_suggestions oracle state).requests = [SchemaName.marketingStrategiesList]
    ∧ (get_subreddits oracle state).requests = [SchemaName.subredditList]
    ∧ (find_candidate_cities_task ag q).output_json_schema = some SchemaName.candidateCities
    ∧ (find_vacation_homes_task ag q t).output_json_schema = some SchemaName.homeMatches
    ∧ (verify_listings ag t).output_json_schema = some SchemaName.homeMatches
    ∧ (find_local_businesses_task ag t).output_json_schema = some SchemaName.homeMatches
    ∧ (summarize_task ag q ts).output_json_schema = none := by
  obtain ⟨k, hk⟩ := finalize_loop_requests_replicate oracle scrape_web state.search_results
  have hreq := finalize_competitors_requests oracle scrape_web state
  refine ⟨?_, ?_, ?_, ?_, ?_, ?_, rfl, rfl, rfl, rfl, rfl⟩
  · cases h : oracle.invokePersonaList (create_personas_prompt state) <;>
      simp [create_personas, h]
  · cases h : oracle.invokeKeywordList (extract_keywords_prompt state) <;>
      simp [extract_keywords, h]
  · intro r hr
    rw [hreq, hk] at hr
    rcases List.mem_append.mp hr with hr | hr
    · exact List.eq_of_mem_replicate hr
    · simpa using hr
  · rw [hreq]
    exact List.mem_append_right _ (List.mem_singleton_self _)
  · cases h : oracle.invokeMarketingStrategiesList (get_marketing_suggestions_prompt state) <;>
      simp [get_marketing_suggestions, h]
  · cases h : oracle.invokeSubredditList (get_subreddits_prompt state) <;>
      simp [get_subreddits, h]

/-- C9: `create_personas` caps its output: when the model returns `resp`, the
node writes exactly the first `max_personas` personas of `resp` to the state,
so the written list has length at most `int(state['max_personas'])` and is a
prefix of the model's list. -/
theorem create_personas_caps_output (oracle : LLMOracle)
    (state : MarketingPlanState) (resp : PersonaList)
    (h : oracle.invokePersonaList (create_personas_prompt state) = .ok resp) :
    (create_personas oracle state).out = .ok (resp.personas.take state.max_personas)
    ∧ (∀ ps, (create_personas oracle state).out = .ok ps →
        ps.length ≤ state.max_personas
        ∧ ps ++ resp.personas.drop state.max_personas = resp.personas) := by
  have hout : (create_personas oracle state).out =
      .ok (resp.personas.take state.max_personas) := by
    simp [create_personas, h]
  refine ⟨hout, ?_⟩
  intro ps hps
  rw [hout] at hps
  have hps' : ps = resp.personas.take state.max_personas := by
    simpa using hps.symm
  subst hps'
  constructor
  · rw [List.length_take]
    exact min_le_left _ _
  · exact List.take_append_drop _ _

/-- C9 witness: with `max_personas = 1` and a model returning two personas,
the node writes exactly the first one. -/
theorem create_personas_caps_output_witness :
    sampleOracle.invokePersonaList (create_personas_prompt sampleState) =
      Except.ok ⟨[⟨"Ann", "a founder"⟩, ⟨"Bo", "a buyer"⟩]⟩
    ∧ (create_personas sampleOracle sampleState).out =
      Except.ok ((⟨[⟨"Ann", "a founder"⟩, ⟨"Bo", "a buyer"⟩]⟩ :
        PersonaList).personas.take sampleState.max_personas) :=
  ⟨rfl,
    (create_personas_caps_output sampleOracle sampleState
      ⟨[⟨"Ann", "a founder"⟩, ⟨"Bo", "a buyer"⟩]⟩ rfl).1⟩

/-- C10: `get_agent` is defined exactly on the registered agent ids: on
`"marketing-agent"`, the only key of `all_agents`, it returns that agent's
compiled graph, and on every other id it raises `KeyError`; and
`get_all_agent_info` returns exactly one `AgentInfo` per registered agent,
with that agent's id as key and its description. -/
theorem registry_get_agent_exact (agent_id : String)
    (h : agent_id ≠ "marketing-agent") :
    Registry.get_agent "marketing-agent" = Except.ok Marketing.marketing_agent
    ∧ Registry.get_agent agent_id = Except.error agent_id
    ∧ Registry.all_agents.map Prod.fst = ["marketing-agent"]
    ∧ Registry.get_all_agent_info = [⟨"marketing-agent", "A marketing agent."⟩] := by
  refine ⟨rfl, ?_, rfl, rfl⟩
  have hb : (agent_id == "marketing-agent") = false := by
    simp [h]
  simp [Registry.get_agent, Registry.all_agents, List.lookup, hb]

/-- C10 witness: the unregistered id `other` raises `KeyError`. -/
theorem registry_get_agent_exact_witness :
    ("other" ≠ "marketing-agent")
    ∧ Registry.get_agent "other" = Except.error "other" :=
  ⟨by decide, (registry_get_agent_exact "other" (by decide)).2.1⟩

/-- C7 witness: at a concrete oracle, failing scraper and state, the persona
node requests `PersonaList` and the competitor node makes a `CompetitorList`
request. -/
theorem structured_output_everywhere_witness :
    (create_personas sampleOracle sampleState).requests = [SchemaName.personaList]
    ∧ SchemaName.competitorList ∈
      (finalize_competitors sampleOracle (fun _ => Except.error "net down")
        sampleState).requests :=
  ⟨(structured_output_everywhere sampleOracle (fun _ => Except.error "net down")
      sampleState city_researcher "q"
      (find_candidate_cities_task city_researcher "q") []).1,
    (structured_output_everywhere sampleOracle (fun _ => Except.error "net down")
      sampleState city_researcher "q"
      (find_candidate_cities_task city_researcher "q") []).2.2.2.1⟩
